import Mathlib

set_option autoImplicit false

/-!
Verification of the resource-fetcher repository's filename policy,
download engine, batch orchestrator and renumbering utility.

Python strings are modelled as `List Char` (one entry per code point).
Each definition is a shallow embedding of the correspondingly named
function of the source tree:

* `sanitize_filename`, `fix_mojibake`, `add_track_number_prefix`,
  `extract_filename_from_headers` —
  `packages/resource-fetcher-core/src/resource_fetcher_core/utils/http.py`
* `download_song`, `download_album`, `renumber_directory` —
  `cli/src/resource_fetcher_cli/cli/main.py`
* `extract_album` — `cli/core/src/resource_fetcher_core/adapters/izanmei.py`

Network and filesystem effects are modelled by explicit oracles: a download
attempt oracle `Nat → Nat → FetchOutcome` (URL index and attempt index to
outcome of the streamed GET), and a disk map `Str → Option Nat` (path to
size of an existing file).  Every attempt, body write and file deletion is
recorded in an event trace.
-/

namespace ResourceFetcher

/-- A Python `str`, one `Char` per code point. -/
abbrev Str := List Char

/-- Code points stripped by Python `str.strip()` (the `str.isspace` set). -/
def pyIsSpace (c : Char) : Bool :=
  [9, 10, 11, 12, 13, 28, 29, 30, 31, 32, 133, 160, 5760,
   8192, 8193, 8194, 8195, 8196, 8197, 8198, 8199, 8200, 8201, 8202,
   8232, 8233, 8239, 8287, 12288].contains c.toNat

/-- Python `str.strip()`: remove leading and trailing whitespace. -/
def pyStrip (s : Str) : Str :=
  ((s.dropWhile pyIsSpace).reverse.dropWhile pyIsSpace).reverse

/-- The reserved character set of `sanitize_filename`
(`utils/http.py`, regex `[\\/:*?"<>|]`). -/
def illegalChars : Str := ['\\', '/', ':', '*', '?', '"', '<', '>', '|']

/-- `utils/http.py`, `sanitize_filename`: replace every reserved character
by an underscore, then strip leading/trailing whitespace. -/
def sanitize_filename (filename : Str) : Str :=
  pyStrip (filename.map (fun c => if illegalChars.contains c then '_' else c))

/-- Python `str.encode("latin-1")`: each code point must be at most `255`,
otherwise a `UnicodeEncodeError` is raised (modelled as `none`). -/
def encodeLatin1 : Str → Option (List Nat)
  | [] => some []
  | c :: cs =>
    if c.toNat ≤ 255 then (encodeLatin1 cs).map (fun bs => c.toNat :: bs)
    else none

/-- Is `b` a UTF-8 continuation byte (`0x80 ≤ b < 0xC0`)? -/
def isCont (b : Nat) : Bool := 128 ≤ b && b < 192

/-- Strict UTF-8 decoding (Python `bytes.decode("utf-8")`), with fuel.
Rejects truncated sequences, stray continuation bytes, overlong forms,
surrogates and code points beyond `U+10FFFF` (all modelled as `none`,
standing for `UnicodeDecodeError`). -/
def utf8DecodeAux : Nat → List Nat → Option (List Char)
  | _, [] => some []
  | 0, _ :: _ => none
  | fuel + 1, b :: bs =>
    if b < 128 then (utf8DecodeAux fuel bs).map (fun cs => Char.ofNat b :: cs)
    else if b < 194 then none
    else if b < 224 then
      match bs with
      | b1 :: rest =>
        if isCont b1 then
          (utf8DecodeAux fuel rest).map
            (fun cs => Char.ofNat ((b - 192) * 64 + (b1 - 128)) :: cs)
        else none
      | [] => none
    else if b < 240 then
      match bs with
      | b1 :: b2 :: rest =>
        if isCont b1 && isCont b2 then
          let n := (b - 224) * 4096 + (b1 - 128) * 64 + (b2 - 128)
          if n < 2048 || (55296 ≤ n && n < 57344) then none
          else (utf8DecodeAux fuel rest).map (fun cs => Char.ofNat n :: cs)
        else none
      | _ => none
    else if b < 245 then
      match bs with
      | b1 :: b2 :: b3 :: rest =>
        if isCont b1 && isCont b2 && isCont b3 then
          let n := (b - 240) * 262144 + (b1 - 128) * 4096 + (b2 - 128) * 64 + (b3 - 128)
          if n < 65536 || 1114111 < n then none
          else (utf8DecodeAux fuel rest).map (fun cs => Char.ofNat n :: cs)
        else none
      | _ => none
    else none

/-- Python `bytes.decode("utf-8")` (strict). -/
def utf8Decode (bs : List Nat) : Option (List Char) :=
  utf8DecodeAux bs.length bs

/-- `utils/http.py`, `fix_mojibake`: re-encode the code points as latin-1 and
decode the recovered bytes as UTF-8; on either encoding failure return the
input unchanged. -/
def fix_mojibake (filename : Str) : Str :=
  match encodeLatin1 filename with
  | none => filename
  | some bytes =>
    match utf8Decode bytes with
    | none => filename
    | some fixed => fixed

/-- Numeric value of a run of ASCII digits (Python `int(...)` on a digit run). -/
def natOfDigits (ds : Str) : Nat :=
  ds.foldl (fun n c => 10 * n + (c.toNat - 48)) 0

/-- `re.search(r"第(\d+)首", s)`: find the leftmost `第` followed by at
least one digit followed by `首`; return the captured number. -/
def findMarker : Str → Option Nat
  | [] => none
  | c :: cs =>
    if c = '第' then
      let ds := cs.takeWhile Char.isDigit
      let rest := cs.dropWhile Char.isDigit
      if ds ≠ [] ∧ rest.head? = some '首' then some (natOfDigits ds)
      else findMarker cs
    else findMarker cs

/-- Padding width of `add_track_number_prefix`: 1 digit below 10 songs,
2 below 100, else 3. -/
def padWidth (total_songs : Nat) : Nat :=
  if total_songs < 10 then 1 else if total_songs < 100 then 2 else 3

/-- Python `f"{n:0{width}d}"` for a nonnegative `n`. -/
def zeroPad (n width : Nat) : Str :=
  let ds := Nat.toDigits 10 n
  List.replicate (width - ds.length) '0' ++ ds

/-- `utils/http.py`, `add_track_number_prefix`: prepend a zero-padded track
number; when no track number is supplied, extract it from the `第N首`
marker, returning the name unchanged when the marker is absent. -/
def add_track_number_prefix (filename : Str) (track_number : Option Nat)
    (total_songs : Nat) : Str :=
  match track_number with
  | some t => zeroPad t (padWidth total_songs) ++ '_' :: filename
  | none =>
    match findMarker filename with
    | none => filename
    | some t => zeroPad t (padWidth total_songs) ++ '_' :: filename

/-- Match a literal at the front of a string; return the remainder. -/
def dropLit? : Str → Str → Option Str
  | [], s => some s
  | _ :: _, [] => none
  | p :: ps, c :: cs => if c = p then dropLit? ps cs else none

/-- Case-insensitive variant of `dropLit?` (the literal is given lowercase). -/
def dropLitCI? : Str → Str → Option Str
  | [], s => some s
  | _ :: _, [] => none
  | p :: ps, c :: cs => if c.toLower = p then dropLitCI? ps cs else none

/-- `re.search(r'filename="([^"]+)"', s)`: leftmost occurrence of the
literal `filename="`, then a nonempty capture up to the next quote. -/
def searchQuotedFilename : Str → Option Str
  | [] => none
  | c :: cs =>
    match dropLit? ("filename=\"".data) (c :: cs) with
    | some rest =>
      let val := rest.takeWhile (fun x => x ≠ '"')
      let rest2 := rest.dropWhile (fun x => x ≠ '"')
      if val ≠ [] ∧ rest2.head? = some '"' then some val
      else searchQuotedFilename cs
    | none => searchQuotedFilename cs

/-- An apostrophe character (code point 39). -/
def apos : Char := Char.ofNat 39

/-- The literal of the RFC 5987 pattern, lowercase:
`filename*=utf-8` followed by two apostrophes. -/
def rfc5987Lit : Str := "filename*=utf-8".data ++ [apos, apos]

/-- `re.search(r"filename\*=UTF-8''([^;]+)", s, re.IGNORECASE)`: leftmost
case-insensitive occurrence of the literal, then a nonempty capture up to
the next semicolon. -/
def searchRfc5987 : Str → Option Str
  | [] => none
  | c :: cs =>
    match dropLitCI? rfc5987Lit (c :: cs) with
    | some rest =>
      let val := rest.takeWhile (fun x => x ≠ ';')
      if val ≠ [] then some val else searchRfc5987 cs
    | none => searchRfc5987 cs

/-- Value of an ASCII hex digit. -/
def hexVal? (c : Char) : Option Nat :=
  if '0' ≤ c ∧ c ≤ '9' then some (c.toNat - 48)
  else if 'a' ≤ c ∧ c ≤ 'f' then some (c.toNat - 87)
  else if 'A' ≤ c ∧ c ≤ 'F' then some (c.toNat - 55)
  else none

/-- Collect a maximal run of `%XX` escapes into bytes, returning the rest. -/
def percentBytes : Str → List Nat × Str
  | '%' :: a :: b :: rest =>
    match hexVal? a, hexVal? b with
    | some x, some y =>
      let (bs, r) := percentBytes rest
      ((16 * x + y) :: bs, r)
    | _, _ => ([], '%' :: a :: b :: rest)
  | s => ([], s)

/-- UTF-8 decoding with `errors="replace"` semantics (malformed input
yields `U+FFFD`), with fuel. -/
def utf8ReplaceAux : Nat → List Nat → List Char
  | _, [] => []
  | 0, _ :: _ => []
  | fuel + 1, b :: bs =>
    if b < 128 then Char.ofNat b :: utf8ReplaceAux fuel bs
    else if b < 194 then '�' :: utf8ReplaceAux fuel bs
    else if b < 224 then
      match bs with
      | b1 :: rest =>
        if isCont b1 then
          Char.ofNat ((b - 192) * 64 + (b1 - 128)) :: utf8ReplaceAux fuel rest
        else '�' :: utf8ReplaceAux fuel bs
      | [] => ['�']
    else if b < 240 then
      match bs with
      | b1 :: b2 :: rest =>
        if isCont b1 && isCont b2 then
          let n := (b - 224) * 4096 + (b1 - 128) * 64 + (b2 - 128)
          if n < 2048 || (55296 ≤ n && n < 57344) then '�' :: utf8ReplaceAux fuel bs
          else Char.ofNat n :: utf8ReplaceAux fuel rest
        else '�' :: utf8ReplaceAux fuel bs
      | _ => ['�']
    else if b < 245 then
      match bs with
      | b1 :: b2 :: b3 :: rest =>
        if isCont b1 && isCont b2 && isCont b3 then
          let n := (b - 240) * 262144 + (b1 - 128) * 4096 + (b2 - 128) * 64 + (b3 - 128)
          if n < 65536 || 1114111 < n then '�' :: utf8ReplaceAux fuel bs
          else Char.ofNat n :: utf8ReplaceAux fuel rest
        else '�' :: utf8ReplaceAux fuel bs
      | _ => ['�']
    else '�' :: utf8ReplaceAux fuel bs

/-- UTF-8 decoding with replacement. -/
def utf8Replace (bs : List Nat) : List Char :=
  utf8ReplaceAux bs.length bs

/-- Python `urllib.parse.unquote`, with fuel: decode runs of `%XX` escapes
as UTF-8 (with replacement), keep an invalid `%` literally. -/
def pyUnquoteAux : Nat → Str → Str
  | 0, s => s
  | fuel + 1, s =>
    match s with
    | [] => []
    | '%' :: rest =>
      let (bs, r) := percentBytes ('%' :: rest)
      if bs.isEmpty then '%' :: pyUnquoteAux fuel rest
      else utf8Replace bs ++ pyUnquoteAux fuel r
    | c :: cs => c :: pyUnquoteAux fuel cs

/-- Python `urllib.parse.unquote`. -/
def pyUnquote (s : Str) : Str := pyUnquoteAux s.length s

/-- Exact-key lookup in a header dictionary (Python `dict.get`; the keys of
`dict(response.headers)` are unique). -/
def lookupHeader (key : Str) (headers : List (Str × Str)) : Option Str :=
  (headers.find? (fun kv => kv.1 == key)).map (fun kv => kv.2)

/-- Lowercase a string (ASCII header names). -/
def toLowerStr (s : Str) : Str := s.map Char.toLower

/-- Case-insensitive lookup (requests `CaseInsensitiveDict.get`); the key is
given lowercase. -/
def lookupHeaderCI (key : Str) (headers : List (Str × Str)) : Option Str :=
  (headers.find? (fun kv => toLowerStr kv.1 == key)).map (fun kv => kv.2)

/-- A nonempty all-digit run, or `none`. -/
def digitsVal? (ds : Str) : Option Nat :=
  if ds ≠ [] ∧ ds.all Char.isDigit then some (natOfDigits ds) else none

/-- Python `int(str)`: optional surrounding whitespace, optional sign, at
least one digit; anything else raises `ValueError` (modelled as `none`). -/
def pyInt? (s : Str) : Option Int :=
  match pyStrip s with
  | '-' :: ds => (digitsVal? ds).map (fun n => -(n : Int))
  | '+' :: ds => (digitsVal? ds).map (fun n => (n : Int))
  | ds => (digitsVal? ds).map (fun n => (n : Int))

/-- Decimal rendering of an integer (Python f-string `{i}`). -/
def intDigits (i : Int) : Str :=
  if i < 0 then '-' :: Nat.toDigits 10 (-i).toNat else Nat.toDigits 10 i.toNat

/-- `utils/http.py`, `extract_filename_from_headers`: prefer the supplied
title (sanitized, `.mp3` appended); else parse `Content-Disposition`
(quoted or RFC 5987 form, percent-decode on `%`, repair mojibake); else
fall back to the song id or a placeholder. -/
def extract_filename_from_headers (headers : List (Str × Str))
    (song_id song_title : Str) : Str :=
  if song_title ≠ [] then sanitize_filename song_title ++ ".mp3".data
  else
    let content_disp := (lookupHeader ("Content-Disposition".data) headers).getD []
    match (searchQuotedFilename content_disp).orElse
        (fun _ => searchRfc5987 content_disp) with
    | some fn =>
      let fn2 := if fn.contains '%' then pyUnquote fn else fn
      fix_mojibake fn2
    | none => if song_id ≠ [] then song_id ++ ".mp3".data else "unknown.mp3".data

/-! The download engine (`cli/main.py`, `download_song`). -/

/-- `core/models.py`, `DownloadStatus`. -/
inductive DownloadStatus where
  | success
  | failed
  | skipped
  | pending
deriving DecidableEq, Repr

/-- `core/models.py`, `DownloadResult`. -/
structure DownloadResult where
  status : DownloadStatus
  path : Option Str
  size : Nat
  message : Str
deriving DecidableEq, Repr

/-- Outcome of one streamed GET, as seen by `download_song`: either the
request/raise_for_status raised a `RequestException` (with its message), or
a response arrived with the given headers and the stream then delivered the
given number of body bytes. -/
inductive FetchOutcome where
  | err (msg : Str)
  | response (headers : List (Str × Str)) (delivered : Nat)

/-- Observable engine events: a GET issued for (URL index, attempt index),
a body streamed to a path, a file deleted. -/
inductive Ev where
  | get (urlIdx attempt : Nat)
  | writeFile (path : Str) (bytes : Nat)
  | deleteFile (path : Str)
deriving DecidableEq, Repr

/-- The scalar parameters of `download_song`. -/
structure EngineCfg where
  output_dir : Str
  song_id : Str
  song_title : Str
  retries : Int
  overwrite : Bool
  renumber : Bool
  total_songs : Nat

/-- The filename computed by `download_song` after a successful response:
header extraction, sanitization, optional renumber prefix. -/
def computedFilename (cfg : EngineCfg) (headers : List (Str × Str)) : Str :=
  let filename :=
    sanitize_filename (extract_filename_from_headers headers cfg.song_id cfg.song_title)
  if cfg.renumber then add_track_number_prefix filename none cfg.total_songs
  else filename

/-- The output path `output_dir / filename`. -/
def computedPath (cfg : EngineCfg) (headers : List (Str × Str)) : Str :=
  cfg.output_dir ++ '/' :: computedFilename cfg headers

/-- `int(response.headers.get("content-length", 0))`: absent header gives
`0`; a non-numeric value raises (modelled as `none`). -/
def computedLen (headers : List (Str × Str)) : Option Int :=
  match lookupHeaderCI ("content-length".data) headers with
  | none => some 0
  | some v => pyInt? v

/-- The url label used in result messages (`primary` / `backup #i`). -/
def urlLabel (url_idx : Nat) : Str :=
  if url_idx = 0 then "primary".data else "backup #".data ++ Nat.toDigits 10 url_idx

/-- The body of `download_song`'s `try` block after a successful
`requests.get`: skip when the path exists and overwrite is off; otherwise
stream the body; delete the partial file and fail (via the generic
`except Exception` handler) on a declared-size mismatch; else succeed. -/
def handleResponse (cfg : EngineCfg) (disk : Str → Option Nat) (label : Str)
    (headers : List (Str × Str)) (delivered : Nat) : DownloadResult × List Ev :=
  let path := computedPath cfg headers
  if (disk path).isSome ∧ cfg.overwrite = false then
    ({ status := .skipped, path := some path, size := 0,
       message := "File already exists".data }, [])
  else
    match computedLen headers with
    | none =>
      ({ status := .failed, path := none, size := 0,
         message := "Error: invalid literal for int() with base 10".data }, [])
    | some total_size =>
      if 0 < total_size ∧ (delivered : Int) ≠ total_size then
        ({ status := .failed, path := none, size := 0,
           message := "Error: File incomplete: ".data ++ Nat.toDigits 10 delivered
             ++ '/' :: intDigits total_size ++ " bytes".data },
         [.writeFile path delivered, .deleteFile path])
      else
        ({ status := .success, path := some path, size := delivered,
           message := "Download successful from ".data ++ label },
         [.writeFile path delivered])

/-- The inner `for attempt in range(retries)` loop of `download_song` for
one URL, starting at attempt `a` with `remaining` attempts left:
a successful response is handled terminally; a `RequestException` sleeps
and retries when attempts remain, breaks to the next URL when this was the
last attempt and the URL is not the last, and fails terminally on the last
attempt of the last URL. -/
def tryAttempts (oracle : Nat → Nat → FetchOutcome) (cfg : EngineCfg)
    (disk : Str → Option Nat) (u : Nat) (isLastUrl : Bool) :
    Nat → Nat → Option DownloadResult × List Ev
  | 0, _ => (none, [])
  | remaining + 1, a =>
    match oracle u a with
    | .response headers delivered =>
      let re := handleResponse cfg disk (urlLabel u) headers delivered
      (some re.1, .get u a :: re.2)
    | .err msg =>
      if remaining ≠ 0 then
        let rec2 := tryAttempts oracle cfg disk u isLastUrl remaining (a + 1)
        (rec2.1, .get u a :: rec2.2)
      else if isLastUrl = false then (none, [.get u a])
      else
        (some { status := .failed, path := none, size := 0,
                message := "Download failed: ".data ++ msg }, [.get u a])

/-- The outer `for url_idx, current_url in enumerate(all_urls)` loop; when
every URL is exhausted without a terminal outcome the function falls
through to `Failed` with message `Unknown error`. -/
def tryUrls (oracle : Nat → Nat → FetchOutcome) (cfg : EngineCfg)
    (disk : Str → Option Nat) : List Str → Nat → DownloadResult × List Ev
  | [], _ =>
    ({ status := .failed, path := none, size := 0,
       message := "Unknown error".data }, [])
  | _current :: rest, u =>
    let at1 := tryAttempts oracle cfg disk u rest.isEmpty cfg.retries.toNat 0
    match at1.1 with
    | some r => (r, at1.2)
    | none =>
      let r2 := tryUrls oracle cfg disk rest (u + 1)
      (r2.1, at1.2 ++ r2.2)

/-- `cli/main.py`, `download_song`: candidate list `[url] ++ backup_urls`
(the backup list is taken as already supplied), tried in order with
`retries` attempts per URL. -/
def download_song (url : Str) (backup_urls : List Str) (cfg : EngineCfg)
    (oracle : Nat → Nat → FetchOutcome) (disk : Str → Option Nat) :
    DownloadResult × List Ev :=
  tryUrls oracle cfg disk (url :: backup_urls) 0

/-- Effect of one event on the disk map. -/
def applyEv (disk : Str → Option Nat) : Ev → (Str → Option Nat)
  | .writeFile p n => fun q => if q = p then some n else disk q
  | .deleteFile p => fun q => if q = p then none else disk q
  | .get _ _ => disk

/-- The disk map after a trace of events. -/
def finalDisk (disk : Str → Option Nat) (evs : List Ev) : Str → Option Nat :=
  evs.foldl applyEv disk

/-- The GET events of all-failing URLs `u, u+1, …, u+m-1`, `retries`
attempts each. -/
def errGets (retries : Nat) : Nat → Nat → List Ev
  | _, 0 => []
  | u, m + 1 =>
    (List.range' 0 retries).map (fun j => Ev.get u j) ++ errGets retries (u + 1) m

/-! The batch orchestrator (`cli/main.py`, `download_album`). -/

/-- `core/models.py`, `Song`. -/
structure Song where
  id : Str
  title : Str
  url : Str
  metadata : List (Str × Str)
deriving DecidableEq, Repr

/-- `core/models.py`, `Album`. -/
structure Album where
  title : Str
  url : Str
  songs : List Song
  source : Str
deriving DecidableEq, Repr

/-- Progress events of `download_album` (the `progress_markers` side
channel plus the reported error of the `except` handler). -/
inductive AlbumEv where
  | albumStart (title source : Str) (total : Nat)
  | songStart (idx total : Nat) (title : Str)
  | songComplete (idx : Nat) (title : Str) (status : DownloadStatus)
      (size : Nat) (message : Str)
  | albumComplete (success failed skipped total : Nat)
  | errorEv (msg : Str)
deriving DecidableEq, Repr

/-- `songs = album.songs[:limit] if limit else album.songs`: Python
truthiness (a limit of `0` or `None` means no slicing) and Python slice
semantics for negative bounds. -/
def pySliceLimit (songs : List Song) (limit : Option Int) : List Song :=
  match limit with
  | none => songs
  | some l =>
    if l = 0 then songs
    else if 0 ≤ l then songs.take l.toNat
    else songs.take (songs.length - (-l).toNat)

/-- The per-song loop of `download_album`: 1-based enumeration, one
`song_start`/`song_complete` pair per song, and the running
success/failed/skipped counts of `DownloadProgress.update`. -/
def albumLoop (results : Nat → DownloadResult) (total : Nat) :
    List Song → Nat → (Nat × Nat × Nat) × List AlbumEv
  | [], _ => ((0, 0, 0), [])
  | song :: rest, idx =>
    let r := results idx
    let acc := albumLoop results total rest (idx + 1)
    let d : Nat × Nat × Nat :=
      match r.status with
      | .success => (1, 0, 0)
      | .failed => (0, 1, 0)
      | _ => (0, 0, 1)
    ((d.1 + acc.1.1, d.2.1 + acc.1.2.1, d.2.2 + acc.1.2.2),
     .songStart idx total song.title ::
       .songComplete idx song.title r.status r.size r.message :: acc.2)

/-- `cli/main.py`, `download_album`: the page fetch and adapter extraction
are summarized by `album?` (an exception from either is the `error` case,
handled by the function's `except` block: report the error, return
`False`); the per-song `download_song` results are supplied by the
`results` oracle, keyed by the 1-based song index.  Returns
`progress.failed == 0` and the emitted event trace. -/
def download_album (album? : Except Str Album) (limit : Option Int)
    (results : Nat → DownloadResult) : Bool × List AlbumEv :=
  match album? with
  | .error e => (false, [.errorEv e])
  | .ok album =>
    let songs := pySliceLimit album.songs limit
    let lp := albumLoop results songs.length songs 1
    (decide (lp.1.2.1 = 0),
     .albumStart album.title album.source album.songs.length ::
       (lp.2 ++ [.albumComplete lp.1.1 lp.1.2.1 lp.1.2.2 songs.length]))

/-- Titles of the `song_start` events, in order. -/
def startedTitles (evs : List AlbumEv) : List Str :=
  evs.filterMap (fun e =>
    match e with
    | .songStart _ _ t => some t
    | _ => none)

/-- Totals of the `album_complete` events, in order. -/
def completeTotals (evs : List AlbumEv) : List Nat :=
  evs.filterMap (fun e =>
    match e with
    | .albumComplete _ _ _ t => some t
    | _ => none)

/-- Messages of the `error` events, in order. -/
def errorMsgs (evs : List AlbumEv) : List Str :=
  evs.filterMap (fun e =>
    match e with
    | .errorEv m => some m
    | _ => none)

/-! The adapter (`adapters/izanmei.py`, `IzanmeiAdapter.extract_album`).
The three `re.findall` results over the page body are taken as parameters
(the regex engine itself is not modelled); everything downstream of the
parses — entry pairing, fallback enumeration, the `No songs found` error
and song construction — is embedded. -/

/-- `IzanmeiAdapter.AUDIO_BASE`. -/
def AUDIO_BASE : Str := "https://play.xiaoh.ai/song/p".data

/-- `enumerate(matches, 1)` turned into `(str(i), song_id, title)` entries. -/
def enumEntries (ms : List (Str × Str)) : List (Str × Str × Str) :=
  ((List.range ms.length).zip ms).map
    (fun p => (Nat.toDigits 10 (p.1 + 1), p.2.1, p.2.2))

/-- `IzanmeiAdapter.extract_album`, downstream of the regex parses:
`track_numbers` and `songs_data` are paired positionally up to the shorter
length; with either list empty the fallback matches are enumerated; with no
fallback matches a `ValueError("No songs found in HTML")` is raised
(modelled as `Except.error`). -/
def extract_album (album_title page_url : Str) (track_numbers : List Str)
    (songs_data fallback_matches : List (Str × Str)) : Except Str Album :=
  let entries0 : Option (List (Str × Str × Str)) :=
    if 0 < track_numbers.length ∧ 0 < songs_data.length then
      some ((track_numbers.zip songs_data).map (fun p => (p.1, p.2.1, p.2.2)))
    else if fallback_matches ≠ [] then some (enumEntries fallback_matches)
    else none
  match entries0 with
  | none => Except.error ("No songs found in HTML".data)
  | some song_entries =>
    let entries1 : Option (List (Str × Str × Str)) :=
      if song_entries = [] then
        if fallback_matches ≠ [] then some (enumEntries fallback_matches) else none
      else some song_entries
    match entries1 with
    | none => Except.error ("No songs found in HTML".data)
    | some entries =>
      Except.ok
        { title := album_title, url := page_url,
          songs := entries.map (fun e =>
            { id := e.2.1,
              title := "第".data ++ e.1 ++ "首 ".data ++ pyStrip e.2.2,
              url := AUDIO_BASE ++ '/' :: e.2.1 ++ ".mp3".data,
              metadata := [("source".data, "izanmei.cc".data),
                           ("track_number".data, e.1)] }),
          source := "izanmei.cc".data }

/-! The renumbering utility (`cli/main.py`, `renumber_directory`). -/

/-- `pathlib.Path.stem` for the globbed `*.mp3` names: the name up to the
last dot (the whole name when the only dot is leading). -/
def pyStem (name : Str) : Str :=
  match name.reverse.dropWhile (fun c => c ≠ '.') with
  | [] => name
  | _dot :: rest => if rest = [] then name else rest.reverse

/-- `cli/main.py`, `renumber_directory`, modulo filesystem I/O: the input is
the sorted list of `*.mp3` names of the directory; the result is the list
of performed renames (old, new) plus the renamed and skipped counts.
`total_files` is the count of all `.mp3` files, and files whose stem lacks
the `第N首` marker are skipped.  (The vestigial first scan loop of the
source has no observable effect and is omitted; renames are assumed to
succeed.) -/
def renumber_directory (mp3_files : List Str) : List (Str × Str) × Nat × Nat :=
  let total_files := mp3_files.length
  mp3_files.foldl
    (fun acc name =>
      match findMarker (pyStem name) with
      | none => (acc.1, acc.2.1, acc.2.2 + 1)
      | some track_number =>
        let new_name := add_track_number_prefix name (some track_number) total_files
        if name = new_name then (acc.1, acc.2.1, acc.2.2 + 1)
        else (acc.1 ++ [(name, new_name)], acc.2.1 + 1, acc.2.2))
    ([], 0, 0)

/-- The renames performed when the padding total is `total`: every
marker-bearing file is renamed to its prefixed name. -/
def plannedWith (total : Nat) (files : List Str) : List (Str × Str) :=
  files.filterMap (fun name =>
    (findMarker (pyStem name)).map (fun t =>
      (name, add_track_number_prefix name (some t) total)))

/-- The renames `renumber_directory` performs, described directly: every
marker-bearing file is renamed to its prefixed name, the width computed
from the count of all `.mp3` files. -/
def plannedRenames (files : List Str) : List (Str × Str) :=
  plannedWith files.length files

/-!  #############################  Theorems  #############################  -/

/-! Helper lemmas about `dropWhile` and `pyStrip`. -/

theorem mem_of_mem_dropWhile {α : Type} (p : α → Bool) :
    ∀ (l : List α) (x : α), x ∈ l.dropWhile p → x ∈ l := by
  intro l
  induction l with
  | nil => intro x h; exact h
  | cons a t ih =>
    intro x h
    by_cases hp : p a
    · simp only [List.dropWhile, hp] at h
      exact List.mem_cons_of_mem a (ih x h)
    · simp only [List.dropWhile, hp] at h
      exact h

theorem mem_of_mem_pyStrip (l : Str) (x : Char) (h : x ∈ pyStrip l) : x ∈ l := by
  unfold pyStrip at h
  rw [List.mem_reverse] at h
  have h1 := mem_of_mem_dropWhile pyIsSpace _ _ h
  rw [List.mem_reverse] at h1
  exact mem_of_mem_dropWhile pyIsSpace _ _ h1

theorem dropWhile_head_false {α : Type} (p : α → Bool) (l : List α) :
    l.dropWhile p = [] ∨
      ∃ a t, l.dropWhile p = a :: t ∧ p a = false := by
  induction l with
  | nil => left; rfl
  | cons a t ih =>
    by_cases hp : p a
    · simpa [List.dropWhile, hp] using ih
    · right; exact ⟨a, t, by simp [List.dropWhile, hp], Bool.eq_false_iff.mpr hp⟩

theorem dropWhile_idem {α : Type} (p : α → Bool) (l : List α) :
    (l.dropWhile p).dropWhile p = l.dropWhile p := by
  rcases dropWhile_head_false p l with h | ⟨a, t, h, hpa⟩
  · simp [h]
  · simp [h, List.dropWhile, hpa]

theorem dropWhile_append_singleton {α : Type} (p : α → Bool) (a : α)
    (hpa : p a = false) : ∀ l : List α,
    (l ++ [a]).dropWhile p = l.dropWhile p ++ [a] := by
  intro l
  induction l with
  | nil => simp [List.dropWhile, hpa]
  | cons b t ih =>
    by_cases hp : p b
    · simp [List.dropWhile, hp, ih]
    · simp [List.dropWhile, hp]

theorem pyStrip_eq_self (m : Str) (h1 : m.dropWhile pyIsSpace = m)
    (h2 : m.reverse.dropWhile pyIsSpace = m.reverse) : pyStrip m = m := by
  unfold pyStrip
  rw [h1, h2, List.reverse_reverse]

theorem pyStrip_idem (l : Str) : pyStrip (pyStrip l) = pyStrip l := by
  rcases dropWhile_head_false pyIsSpace l with h | ⟨a, t, h, hpa⟩
  · have : pyStrip l = [] := by
      unfold pyStrip
      simp [h]
    rw [this]
    rfl
  · apply pyStrip_eq_self
    · show (pyStrip l).dropWhile pyIsSpace = pyStrip l
      unfold pyStrip
      rw [h]
      have hrev : (a :: t).reverse = t.reverse ++ [a] := by simp
      rw [hrev, dropWhile_append_singleton pyIsSpace a hpa]
      rw [List.reverse_append]
      simp [List.dropWhile, hpa]
    · show ((pyStrip l).reverse).dropWhile pyIsSpace = (pyStrip l).reverse
      unfold pyStrip
      rw [List.reverse_reverse]
      exact dropWhile_idem pyIsSpace _

theorem map_id_of_mem {α : Type} (f : α → α) :
    ∀ l : List α, (∀ x ∈ l, f x = x) → l.map f = l := by
  intro l
  induction l with
  | nil => intro _; rfl
  | cons a t ih =>
    intro h
    simp only [List.map_cons]
    rw [h a (List.mem_cons_self a t), ih (fun x hx => h x (List.mem_cons_of_mem a hx))]

theorem sanitize_replace_not_illegal (c : Char) :
    illegalChars.contains (if illegalChars.contains c then '_' else c) = false := by
  cases hc : illegalChars.contains c with
  | false => exact hc
  | true => rfl

/-- C6: `sanitize_filename` output never contains a reserved character, and
`sanitize_filename` is idempotent.  (It is a total Lean function, hence it
never fails.) -/
theorem C6_sanitize_filename_safe_idempotent (s : Str) :
    ((sanitize_filename s).all (fun c => !illegalChars.contains c)) = true ∧
      sanitize_filename (sanitize_filename s) = sanitize_filename s := by
  constructor
  · rw [List.all_eq_true]
    intro x hx
    have hx' := mem_of_mem_pyStrip _ _ hx
    rw [List.mem_map] at hx'
    obtain ⟨c, _, rfl⟩ := hx'
    show (!illegalChars.contains (if illegalChars.contains c then '_' else c)) = true
    rw [sanitize_replace_not_illegal c]
    rfl
  · show sanitize_filename (sanitize_filename s) = sanitize_filename s
    unfold sanitize_filename
    have hmap : (pyStrip (s.map (fun c => if illegalChars.contains c then '_' else c))).map
        (fun c => if illegalChars.contains c then '_' else c) =
        pyStrip (s.map (fun c => if illegalChars.contains c then '_' else c)) := by
      apply map_id_of_mem
      intro x hx
      have hx' := mem_of_mem_pyStrip _ _ hx
      rw [List.mem_map] at hx'
      obtain ⟨c, _, rfl⟩ := hx'
      show (if illegalChars.contains (if illegalChars.contains c then '_' else c) then '_'
        else (if illegalChars.contains c then '_' else c)) =
        (if illegalChars.contains c then '_' else c)
      rw [sanitize_replace_not_illegal c]
      rfl
    rw [hmap, pyStrip_idem]

theorem encodeLatin1_ascii : ∀ s : Str, (∀ c ∈ s, c.toNat < 128) →
    encodeLatin1 s = some (s.map Char.toNat) := by
  intro s
  induction s with
  | nil => intro _; rfl
  | cons c cs ih =>
    intro h
    have hc : c.toNat ≤ 255 := by
      have := h c (List.mem_cons_self c cs)
      omega
    simp only [encodeLatin1, if_pos hc,
      ih (fun x hx => h x (List.mem_cons_of_mem c hx)), Option.map_some', List.map_cons]

theorem utf8DecodeAux_ascii : ∀ (s : Str) (fuel : Nat),
    (∀ c ∈ s, c.toNat < 128) → s.length ≤ fuel →
    utf8DecodeAux fuel (s.map Char.toNat) = some s := by
  intro s
  induction s with
  | nil => intro fuel _ _; cases fuel <;> rfl
  | cons c cs ih =>
    intro fuel h hlen
    cases fuel with
    | zero => simp at hlen
    | succ f =>
      have hc : c.toNat < 128 := h c (List.mem_cons_self c cs)
      have ihcs := ih f (fun x hx => h x (List.mem_cons_of_mem c hx))
        (by simpa using Nat.lt_succ_iff.mp (Nat.lt_of_lt_of_le (Nat.lt_succ_self _) hlen))
      simp only [List.map_cons, utf8DecodeAux, if_pos hc, ihcs, Option.map_some',
        Char.ofNat_toNat]

/-- C7: `fix_mojibake` is skipped silently on any encoding failure (when
latin-1 re-encoding or UTF-8 decoding is not representable it returns the
input unchanged), and it is the identity on plain-ASCII strings.  Being a
total Lean function, it never fails. -/
theorem C7_fix_mojibake_safe (s : Str) :
    ((encodeLatin1 s).bind utf8Decode = none → fix_mojibake s = s) ∧
      ((∀ c ∈ s, c.toNat < 128) → fix_mojibake s = s) := by
  constructor
  · intro h
    unfold fix_mojibake
    cases he : encodeLatin1 s with
    | none => rfl
    | some bytes =>
      rw [he] at h
      have h' : utf8Decode bytes = none := h
      show (match utf8Decode bytes with | none => s | some fixed => fixed) = s
      rw [h']
  · intro h
    have hdec : utf8Decode (s.map Char.toNat) = some s := by
      unfold utf8Decode
      rw [List.length_map]
      exact utf8DecodeAux_ascii s s.length h (Nat.le_refl _)
    unfold fix_mojibake
    rw [encodeLatin1_ascii s h]
    show (match utf8Decode (s.map Char.toNat) with | none => s | some fixed => fixed) = s
    rw [hdec]

/-- C7 witness: concrete instances — a string with a code point above `255`
(encoding fails) and a plain-ASCII string. -/
theorem C7_fix_mojibake_safe_witness :
    fix_mojibake ("€".data) = "€".data ∧ fix_mojibake ("abc.mp3".data) = "abc.mp3".data :=
  ⟨(C7_fix_mojibake_safe _).1 (by decide), (C7_fix_mojibake_safe _).2 (by decide)⟩

/-- C8: the output is `zero-padded(trackNumber) ++ "_" ++ name` with width 1
below 10 total songs, 2 below 100, else 3; a name without the positional
marker and without a supplied track number is returned unchanged; and the
three concrete examples of the spec hold. -/
theorem C8_add_track_number_prefix_spec :
    (∀ (name : Str) (t total : Nat),
      add_track_number_prefix name (some t) total =
        zeroPad t (padWidth total) ++ '_' :: name) ∧
    (∀ total : Nat, (total < 10 → padWidth total = 1) ∧
      (10 ≤ total → total < 100 → padWidth total = 2) ∧
      (100 ≤ total → padWidth total = 3)) ∧
    (∀ (name : Str) (total : Nat), findMarker name = none →
      add_track_number_prefix name none total = name) ∧
    add_track_number_prefix ("第7首 x.mp3".data) none 9 = ("7_第7首 x.mp3".data) ∧
    add_track_number_prefix ("第7首 x.mp3".data) none 50 = ("07_第7首 x.mp3".data) ∧
    add_track_number_prefix ("第7首 x.mp3".data) none 150 = ("007_第7首 x.mp3".data) := by
  refine ⟨fun name t total => rfl, fun total => ⟨?_, ?_, ?_⟩, ?_, by decide, by decide, by decide⟩
  · intro h
    simp [padWidth, h]
  · intro h1 h2
    have : ¬ total < 10 := by omega
    simp [padWidth, this, h2]
  · intro h
    have h1 : ¬ total < 10 := by omega
    have h2 : ¬ total < 100 := by omega
    simp [padWidth, h1, h2]
  · intro name total h
    simp [ add_track_number_prefix, h]

/-- C8 witness: concrete instances discharging the hypotheses. -/
theorem C8_add_track_number_prefix_spec_witness :
    padWidth 5 = 1 ∧ padWidth 50 = 2 ∧ padWidth 150 = 3 ∧
      add_track_number_prefix ("x.mp3".data) none 5 = "x.mp3".data :=
  ⟨(C8_add_track_number_prefix_spec.2.1 5).1 (by decide),
   (C8_add_track_number_prefix_spec.2.1 50).2.1 (by decide) (by decide),
   (C8_add_track_number_prefix_spec.2.1 150).2.2 (by decide),
   C8_add_track_number_prefix_spec.2.2.1 ("x.mp3".data) 5 (by decide)⟩

/-! Engine run lemmas. -/

theorem tryUrls_retries_zero (oracle : Nat → Nat → FetchOutcome) (cfg : EngineCfg)
    (disk : Str → Option Nat) (h : cfg.retries.toNat = 0) :
    ∀ (l : List Str) (u : Nat),
    tryUrls oracle cfg disk l u =
      ({ status := .failed, path := none, size := 0,
         message := "Unknown error".data }, []) := by
  intro l
  induction l with
  | nil => intro u; rfl
  | cons x rest ih =>
    intro u
    have hAtt : tryAttempts oracle cfg disk u rest.isEmpty cfg.retries.toNat 0 =
        (none, []) := by
      rw [h]
      rfl
    simp only [tryUrls, hAtt, ih (u + 1)]
    rfl

/-- C10: calling `download_song` with `retries ≤ 0` makes both loops run
zero attempts; the function falls through and returns `Failed` with message
`Unknown error`, never issuing a network request (empty event trace), for
every primary URL and backup list. -/
theorem C10_download_song_nonpositive_retries (url : Str) (backup_urls : List Str)
    (cfg : EngineCfg) (oracle : Nat → Nat → FetchOutcome) (disk : Str → Option Nat)
    (h : cfg.retries ≤ 0) :
    download_song url backup_urls cfg oracle disk =
      ({ status := .failed, path := none, size := 0,
         message := "Unknown error".data }, []) := by
  have h0 : cfg.retries.toNat = 0 := Int.toNat_of_nonpos h
  unfold download_song
  exact tryUrls_retries_zero oracle cfg disk h0 _ 0

/-- C10 witness: a concrete zero-retries invocation. -/
theorem C10_download_song_nonpositive_retries_witness :
    download_song ("p".data) ["b".data]
      { output_dir := "out".data, song_id := [], song_title := "t".data,
        retries := 0, overwrite := false, renumber := false, total_songs := 1 }
      (fun _ _ => FetchOutcome.err ("x".data)) (fun _ => none) =
      ({ status := .failed, path := none, size := 0,
         message := "Unknown error".data }, []) :=
  C10_download_song_nonpositive_retries _ _ _ _ _ (by decide)

theorem tryAttempts_ok_at (oracle : Nat → Nat → FetchOutcome) (cfg : EngineCfg)
    (disk : Str → Option Nat) (u : Nat) (isLast : Bool)
    (headers : List (Str × Str)) (d : Nat) :
    ∀ (remaining a : Nat), remaining ≠ 0 → oracle u a = .response headers d →
    tryAttempts oracle cfg disk u isLast remaining a =
      (some (handleResponse cfg disk (urlLabel u) headers d).1,
       .get u a :: (handleResponse cfg disk (urlLabel u) headers d).2) := by
  intro remaining a hne hok
  cases remaining with
  | zero => exact absurd rfl hne
  | succ r => simp only [tryAttempts, hok]

theorem tryAttempts_err_run (oracle : Nat → Nat → FetchOutcome) (cfg : EngineCfg)
    (disk : Str → Option Nat) (u : Nat) (isLast : Bool) (em : Nat → Str) :
    ∀ (k remaining a : Nat), k < remaining →
    (∀ j, j < k → oracle u (a + j) = .err (em (a + j))) →
    tryAttempts oracle cfg disk u isLast remaining a =
      ((tryAttempts oracle cfg disk u isLast (remaining - k) (a + k)).1,
       (List.range' a k).map (fun i => Ev.get u i) ++
         (tryAttempts oracle cfg disk u isLast (remaining - k) (a + k)).2) := by
  intro k
  induction k with
  | zero =>
    intro remaining a _ _
    simp
  | succ k ih =>
    intro remaining a hk hprev
    cases remaining with
    | zero => omega
    | succ r =>
      have h0 : oracle u a = .err (em a) := by
        have := hprev 0 (Nat.succ_pos k)
        simpa using this
      have hrne : r ≠ 0 := by omega
      have hrec := ih r (a + 1) (by omega)
        (fun j hj => by
          have := hprev (j + 1) (by omega)
          rw [show a + (j + 1) = a + 1 + j by omega] at this
          exact this)
      have hsub : r - k = r + 1 - (k + 1) := by omega
      have hadd : a + 1 + k = a + (k + 1) := by omega
      rw [hsub, hadd] at hrec
      simp only [tryAttempts, h0, if_pos hrne, hrec]
      rw [show List.range' a (k + 1) = a :: List.range' (a + 1) k from rfl]
      simp

theorem tryAttempts_all_err (oracle : Nat → Nat → FetchOutcome) (cfg : EngineCfg)
    (disk : Str → Option Nat) (u : Nat) (em : Nat → Str) :
    ∀ (remaining a : Nat),
    (∀ j, j < remaining → oracle u (a + j) = .err (em (a + j))) →
    tryAttempts oracle cfg disk u false remaining a =
      (none, (List.range' a remaining).map (fun i => Ev.get u i)) := by
  intro remaining
  induction remaining with
  | zero => intro a _; rfl
  | succ r ih =>
    intro a h
    have h0 : oracle u a = .err (em a) := by
      have := h 0 (Nat.succ_pos r)
      simpa using this
    by_cases hr : r = 0
    · subst hr
      simp only [tryAttempts, h0, if_neg (by simp : ¬(0 : Nat) ≠ 0)]
      rfl
    · have hrec := ih (a + 1)
        (fun j hj => by
          have := h (j + 1) (by omega)
          rw [show a + (j + 1) = a + 1 + j by omega] at this
          exact this)
      simp only [tryAttempts, h0, if_pos hr, hrec]
      rw [show List.range' a (r + 1) = a :: List.range' (a + 1) r from rfl]
      simp

theorem tryUrls_err_run (oracle : Nat → Nat → FetchOutcome) (cfg : EngineCfg)
    (disk : Str → Option Nat) (em : Nat → Nat → Str) :
    ∀ (m : Nat) (l : List Str) (u : Nat), m < l.length →
    (∀ i j, i < m → j < cfg.retries.toNat → oracle (u + i) j = .err (em (u + i) j)) →
    tryUrls oracle cfg disk l u =
      ((tryUrls oracle cfg disk (l.drop m) (u + m)).1,
       errGets cfg.retries.toNat u m ++ (tryUrls oracle cfg disk (l.drop m) (u + m)).2) := by
  intro m
  induction m with
  | zero =>
    intro l u _ _
    simp [errGets]
  | succ m ih =>
    intro l u hm hprev
    cases l with
    | nil => simp at hm
    | cons x rest =>
      have hrest : rest ≠ [] := by
        intro hre
        rw [hre] at hm
        simp at hm
      have hre2 : rest.isEmpty = false := by
        cases rest with
        | nil => exact absurd rfl hrest
        | cons y t => rfl
      have hAll : tryAttempts oracle cfg disk u rest.isEmpty cfg.retries.toNat 0 =
          (none, (List.range' 0 cfg.retries.toNat).map (fun i => Ev.get u i)) := by
        rw [hre2]
        exact tryAttempts_all_err oracle cfg disk u (em u) cfg.retries.toNat 0
          (fun j hj => by
            have := hprev 0 j (Nat.succ_pos m) hj
            simpa using this)
      have hshift : ∀ i j, i < m → j < cfg.retries.toNat →
          oracle (u + 1 + i) j = .err (em (u + 1 + i) j) := by
        intro i j hi hj
        have := hprev (i + 1) j (by omega) hj
        rw [show u + (i + 1) = u + 1 + i by omega] at this
        exact this
      have hrec := ih rest (u + 1) (by simpa using Nat.lt_of_succ_lt_succ hm) hshift
      have haddu : u + 1 + m = u + (m + 1) := by omega
      rw [haddu] at hrec
      simp only [tryUrls, hAll, hrec, List.drop_succ_cons]
      rw [show errGets cfg.retries.toNat u (m + 1) =
        (List.range' 0 cfg.retries.toNat).map (fun j => Ev.get u j) ++
          errGets cfg.retries.toNat (u + 1) m from rfl]
      simp [List.append_assoc]

/-- If every attempt before URL `u` fails with a transport error, every
attempt on `u` before attempt `a` fails with a transport error, and attempt
`a` on `u` receives a response, then `download_song` returns the handling
of that response, after exactly the recorded failed GETs in order. -/
theorem download_song_reaches (url : Str) (backups : List Str) (cfg : EngineCfg)
    (oracle : Nat → Nat → FetchOutcome) (disk : Str → Option Nat)
    (em : Nat → Nat → Str) (u a : Nat) (headers : List (Str × Str)) (d : Nat)
    (hu : u < (url :: backups).length)
    (ha : a < cfg.retries.toNat)
    (hpu : ∀ i j, i < u → j < cfg.retries.toNat → oracle i j = .err (em i j))
    (hpa : ∀ j, j < a → oracle u j = .err (em u j))
    (hok : oracle u a = .response headers d) :
    download_song url backups cfg oracle disk =
      ((handleResponse cfg disk (urlLabel u) headers d).1,
       errGets cfg.retries.toNat 0 u ++
         (List.range' 0 a).map (fun j => Ev.get u j) ++
         Ev.get u a :: (handleResponse cfg disk (urlLabel u) headers d).2) := by
  unfold download_song
  rw [tryUrls_err_run oracle cfg disk em u (url :: backups) 0 hu
    (fun i j hi hj => by simpa using hpu i j hi hj)]
  rw [show (0 : Nat) + u = u by omega, List.drop_eq_getElem_cons hu]
  have hAtt : tryAttempts oracle cfg disk u ((url :: backups).drop (u + 1)).isEmpty
      cfg.retries.toNat 0 =
      (some (handleResponse cfg disk (urlLabel u) headers d).1,
       (List.range' 0 a).map (fun i => Ev.get u i) ++
         Ev.get u a :: (handleResponse cfg disk (urlLabel u) headers d).2) := by
    rw [tryAttempts_err_run oracle cfg disk u _ (em u) a cfg.retries.toNat 0 ha
      (fun j hj => by simpa using hpa j hj)]
    rw [tryAttempts_ok_at oracle cfg disk u _ headers d (cfg.retries.toNat - a) (0 + a)
      (by omega) (by simpa using hok)]
    simp
  simp only [tryUrls, hAtt]
  rw [List.append_assoc]

theorem errGets_all_gets (retries : Nat) :
    ∀ (m u : Nat) (e : Ev), e ∈ errGets retries u m → ∃ i j, e = Ev.get i j := by
  intro m
  induction m with
  | zero => intro u e h; simp [errGets] at h
  | succ m ih =>
    intro u e h
    simp only [errGets, List.mem_append] at h
    rcases h with h | h
    · rw [List.mem_map] at h
      obtain ⟨j, _, rfl⟩ := h
      exact ⟨u, j, rfl⟩
    · exact ih (u + 1) e h

theorem finalDisk_gets (disk : Str → Option Nat) :
    ∀ evs : List Ev, (∀ e ∈ evs, ∃ i j, e = Ev.get i j) →
    ∀ q, finalDisk disk evs q = disk q := by
  intro evs
  induction evs generalizing disk with
  | nil => intro _ q; rfl
  | cons e t ih =>
    intro h q
    obtain ⟨i, j, rfl⟩ := h e (List.mem_cons_self e t)
    show finalDisk (applyEv disk (Ev.get i j)) t q = disk q
    exact ih disk (fun x hx => h x (List.mem_cons_of_mem _ hx)) q

theorem finalDisk_last_delete (disk : Str → Option Nat) (evs : List Ev) (p : Str) :
    finalDisk disk (evs ++ [Ev.deleteFile p]) p = none := by
  unfold finalDisk
  rw [List.foldl_append]
  show applyEv (List.foldl applyEv disk evs) (Ev.deleteFile p) p = none
  simp [applyEv]

/-- C1 (amended: at least one attempt per URL, i.e. `retries ≥ 1`): when
every attempt on the primary URL fails with a transport error and the
single backup URL's first attempt succeeds (fresh path, matching declared
size), `download_song` returns `Success` with the bytes delivered by the
backup, after exactly `retries` failed GETs of the primary URL (in order,
candidate list `[primary] ++ backups`, never reordered). -/
theorem C1_download_song_backup_failover (url b : Str) (cfg : EngineCfg)
    (oracle : Nat → Nat → FetchOutcome) (disk : Str → Option Nat)
    (em : Nat → Str) (headers : List (Str × Str)) (d : Nat) (t : Int)
    (hr : 1 ≤ cfg.retries)
    (hfail : ∀ j, oracle 0 j = .err (em j))
    (hok : oracle 1 0 = .response headers d)
    (hnew : disk (computedPath cfg headers) = none)
    (hlen : computedLen headers = some t)
    (hsz : ¬(0 < t ∧ (d : Int) ≠ t)) :
    download_song url [b] cfg oracle disk =
      ({ status := .success, path := some (computedPath cfg headers), size := d,
         message := "Download successful from ".data ++ urlLabel 1 },
       (List.range' 0 cfg.retries.toNat).map (fun j => Ev.get 0 j) ++
         [Ev.get 1 0, Ev.writeFile (computedPath cfg headers) d]) := by
  have hR : 0 < cfg.retries.toNat := by omega
  have hH : handleResponse cfg disk (urlLabel 1) headers d =
      ({ status := .success, path := some (computedPath cfg headers), size := d,
         message := "Download successful from ".data ++ urlLabel 1 },
       [Ev.writeFile (computedPath cfg headers) d]) := by
    simp [handleResponse, hnew, hlen, hsz]
  rw [download_song_reaches url [b] cfg oracle disk (fun i j => em j) 1 0 headers d
    (by simp) hR
    (fun i j hi _ => by
      have : i = 0 := by omega
      subst this
      exact hfail j)
    (fun j hj => by omega)
    hok]
  rw [hH]
  simp [errGets]

/-- C1 witness: primary always fails, one backup succeeds, `retries = 2`. -/
theorem C1_download_song_backup_failover_witness :
    download_song ("p".data) ["b".data]
      { output_dir := "out".data, song_id := [], song_title := "t".data,
        retries := 2, overwrite := false, renumber := false, total_songs := 1 }
      (fun u _ => if u = 0 then FetchOutcome.err ("boom".data)
                  else FetchOutcome.response [] 5)
      (fun _ => none) =
      ({ status := .success, path := some ("out/t.mp3".data), size := 5,
         message := "Download successful from backup #1".data },
       [Ev.get 0 0, Ev.get 0 1, Ev.get 1 0, Ev.writeFile ("out/t.mp3".data) 5]) := by
  have h := C1_download_song_backup_failover ("p".data) ("b".data)
    { output_dir := "out".data, song_id := [], song_title := "t".data,
      retries := 2, overwrite := false, renumber := false, total_songs := 1 }
    (fun u _ => if u = 0 then FetchOutcome.err ("boom".data)
                else FetchOutcome.response [] 5)
    (fun _ => none) (fun _ => "boom".data) [] 5 0
    (by decide) (fun j => rfl) rfl (by decide) (by decide) (by decide)
  exact h

/-- C1 counterexample: with `retries = 0` the same scenario (primary always
fails, backup succeeds) returns `Failed "Unknown error"` with no request —
not `Success` — so the claim fails without the `retries ≥ 1` bound. -/
theorem C1_cex_zero_retries :
    download_song ("p".data) ["b".data]
      { output_dir := "out".data, song_id := [], song_title := "t".data,
        retries := 0, overwrite := false, renumber := false, total_songs := 1 }
      (fun u _ => if u = 0 then FetchOutcome.err ("boom".data)
                  else FetchOutcome.response [] 5)
      (fun _ => none) =
      ({ status := .failed, path := none, size := 0,
         message := "Unknown error".data }, []) := by
  decide

/-- C2 (amended): a declared-size mismatch deletes the partial file but
fails the resource immediately — the `ValueError` is caught by the generic
`except Exception` handler, not the `RequestException` one — so no retry on
the same URL and no URL failover happen, regardless of remaining attempts;
the outcome is `Failed` and no partial file is left behind. -/
theorem C2_download_song_size_mismatch_fails_fast
    (url : Str) (backups : List Str) (cfg : EngineCfg)
    (oracle : Nat → Nat → FetchOutcome) (disk : Str → Option Nat)
    (em : Nat → Nat → Str) (u a : Nat) (headers : List (Str × Str)) (d : Nat) (N : Int)
    (hu : u < (url :: backups).length)
    (ha : a < cfg.retries.toNat)
    (hpu : ∀ i j, i < u → j < cfg.retries.toNat → oracle i j = .err (em i j))
    (hpa : ∀ j, j < a → oracle u j = .err (em u j))
    (hok : oracle u a = .response headers d)
    (hnoskip : ¬((disk (computedPath cfg headers)).isSome ∧ cfg.overwrite = false))
    (hlen : computedLen headers = some N) (hN : 0 < N) (hne : (d : Int) ≠ N) :
    download_song url backups cfg oracle disk =
      ({ status := .failed, path := none, size := 0,
         message := "Error: File incomplete: ".data ++ Nat.toDigits 10 d
           ++ '/' :: intDigits N ++ " bytes".data },
       errGets cfg.retries.toNat 0 u ++
         (List.range' 0 a).map (fun j => Ev.get u j) ++
         [Ev.get u a, Ev.writeFile (computedPath cfg headers) d,
          Ev.deleteFile (computedPath cfg headers)]) ∧
    finalDisk disk (download_song url backups cfg oracle disk).2
      (computedPath cfg headers) = none := by
  have hH : handleResponse cfg disk (urlLabel u) headers d =
      ({ status := .failed, path := none, size := 0,
         message := "Error: File incomplete: ".data ++ Nat.toDigits 10 d
           ++ '/' :: intDigits N ++ " bytes".data },
       [Ev.writeFile (computedPath cfg headers) d,
        Ev.deleteFile (computedPath cfg headers)]) := by
    simp [handleResponse, hnoskip, hlen, hN, hne]
  have hrun := download_song_reaches url backups cfg oracle disk em u a headers d
    hu ha hpu hpa hok
  rw [hH] at hrun
  refine ⟨by rw [hrun], ?_⟩
  rw [hrun]
  show finalDisk disk (_ ++ _ ++ Ev.get u a ::
    [Ev.writeFile (computedPath cfg headers) d,
     Ev.deleteFile (computedPath cfg headers)]) (computedPath cfg headers) = none
  have hsplit : errGets cfg.retries.toNat 0 u ++
      (List.range' 0 a).map (fun j => Ev.get u j) ++
      Ev.get u a :: [Ev.writeFile (computedPath cfg headers) d,
        Ev.deleteFile (computedPath cfg headers)] =
      (errGets cfg.retries.toNat 0 u ++
        (List.range' 0 a).map (fun j => Ev.get u j) ++
        [Ev.get u a, Ev.writeFile (computedPath cfg headers) d]) ++
        [Ev.deleteFile (computedPath cfg headers)] := by
    simp
  rw [hsplit, finalDisk_last_delete]

/-- C2 witness: first attempt of the only URL declares 10 bytes but
delivers 9; the engine fails at once and the partial file is gone. -/
theorem C2_download_song_size_mismatch_fails_fast_witness :
    download_song ("p".data) []
      { output_dir := "out".data, song_id := [], song_title := "t".data,
        retries := 2, overwrite := false, renumber := false, total_songs := 1 }
      (fun _ a => if a = 0 then FetchOutcome.response [("Content-Length".data, "10".data)] 9
                  else FetchOutcome.response [("Content-Length".data, "10".data)] 10)
      (fun _ => none) =
      ({ status := .failed, path := none, size := 0,
         message := "Error: File incomplete: 9/10 bytes".data },
       [Ev.get 0 0, Ev.writeFile ("out/t.mp3".data) 9,
        Ev.deleteFile ("out/t.mp3".data)]) := by
  have h := C2_download_song_size_mismatch_fails_fast ("p".data) []
    { output_dir := "out".data, song_id := [], song_title := "t".data,
      retries := 2, overwrite := false, renumber := false, total_songs := 1 }
    (fun _ a => if a = 0 then FetchOutcome.response [("Content-Length".data, "10".data)] 9
                else FetchOutcome.response [("Content-Length".data, "10".data)] 10)
    (fun _ => none) (fun _ _ => []) 0 0
    [("Content-Length".data, "10".data)] 9 10
    (by decide) (by decide)
    (fun i j hi _ => absurd hi (by omega))
    (fun j hj => absurd hj (by omega))
    rfl (by decide) (by decide) (by decide) (by decide)
  exact h.1

/-- C2 counterexample: in the same scenario a retry remains on the URL
(`retries = 2`) and the second attempt would deliver the full 10 bytes, yet
the engine returns `Failed` after a single GET — it does not retry, which
the claim requires. -/
theorem C2_cex_no_retry_on_size_mismatch :
    download_song ("p".data) []
      { output_dir := "out".data, song_id := [], song_title := "t".data,
        retries := 2, overwrite := false, renumber := false, total_songs := 1 }
      (fun _ a => if a = 0 then FetchOutcome.response [("Content-Length".data, "10".data)] 9
                  else FetchOutcome.response [("Content-Length".data, "10".data)] 10)
      (fun _ => none) =
      ({ status := .failed, path := none, size := 0,
         message := "Error: File incomplete: 9/10 bytes".data },
       [Ev.get 0 0, Ev.writeFile ("out/t.mp3".data) 9,
        Ev.deleteFile ("out/t.mp3".data)]) ∧
    ((fun _ a => if a = 0 then FetchOutcome.response [("Content-Length".data, "10".data)] 9
                 else FetchOutcome.response [("Content-Length".data, "10".data)] 10) :
      Nat → Nat → FetchOutcome) 0 1 =
      FetchOutcome.response [("Content-Length".data, "10".data)] 10 := by
  constructor
  · decide
  · rfl

/-- C3: whenever the run reaches a successful response (all earlier
attempts were transport errors), the computed output path exists and
`overwrite` is off, `download_song` returns `Skipped` carrying that path,
writes no body bytes (the trace holds only GET events) and leaves the disk
unchanged. -/
theorem C3_download_song_skips_existing
    (url : Str) (backups : List Str) (cfg : EngineCfg)
    (oracle : Nat → Nat → FetchOutcome) (disk : Str → Option Nat)
    (em : Nat → Nat → Str) (u a : Nat) (headers : List (Str × Str)) (d sz : Nat)
    (hu : u < (url :: backups).length)
    (ha : a < cfg.retries.toNat)
    (hpu : ∀ i j, i < u → j < cfg.retries.toNat → oracle i j = .err (em i j))
    (hpa : ∀ j, j < a → oracle u j = .err (em u j))
    (hok : oracle u a = .response headers d)
    (hov : cfg.overwrite = false)
    (hex : disk (computedPath cfg headers) = some sz) :
    download_song url backups cfg oracle disk =
      ({ status := .skipped, path := some (computedPath cfg headers), size := 0,
         message := "File already exists".data },
       errGets cfg.retries.toNat 0 u ++
         (List.range' 0 a).map (fun j => Ev.get u j) ++ [Ev.get u a]) ∧
    (∀ q, finalDisk disk (download_song url backups cfg oracle disk).2 q = disk q) := by
  have hH : handleResponse cfg disk (urlLabel u) headers d =
      ({ status := .skipped, path := some (computedPath cfg headers), size := 0,
         message := "File already exists".data }, []) := by
    simp [handleResponse, hex, hov]
  have hrun := download_song_reaches url backups cfg oracle disk em u a headers d
    hu ha hpu hpa hok
  rw [hH] at hrun
  refine ⟨by rw [hrun], ?_⟩
  intro q
  rw [hrun]
  apply finalDisk_gets
  intro e he
  simp only [List.mem_append, List.mem_cons, List.mem_map, List.not_mem_nil,
    or_false] at he
  rcases he with (he | ⟨j, _, rfl⟩) | he
  · exact errGets_all_gets cfg.retries.toNat u 0 e he
  · exact ⟨u, j, rfl⟩
  · exact ⟨u, a, by rw [he]⟩

/-- C3 witness: one URL, first attempt responds, the computed path
`out/t.mp3` already exists with 99 bytes, `overwrite = false`. -/
theorem C3_download_song_skips_existing_witness :
    download_song ("p".data) []
      { output_dir := "out".data, song_id := [], song_title := "t".data,
        retries := 1, overwrite := false, renumber := false, total_songs := 1 }
      (fun _ _ => FetchOutcome.response [] 7)
      (fun q => if q = "out/t.mp3".data then some 99 else none) =
      ({ status := .skipped, path := some ("out/t.mp3".data), size := 0,
         message := "File already exists".data },
       [Ev.get 0 0]) ∧
    finalDisk (fun q => if q = "out/t.mp3".data then some 99 else none)
      (download_song ("p".data) []
        { output_dir := "out".data, song_id := [], song_title := "t".data,
          retries := 1, overwrite := false, renumber := false, total_songs := 1 }
        (fun _ _ => FetchOutcome.response [] 7)
        (fun q => if q = "out/t.mp3".data then some 99 else none)).2
      ("out/t.mp3".data) = some 99 := by
  have h := C3_download_song_skips_existing ("p".data) []
    { output_dir := "out".data, song_id := [], song_title := "t".data,
      retries := 1, overwrite := false, renumber := false, total_songs := 1 }
    (fun _ _ => FetchOutcome.response [] 7)
    (fun q => if q = "out/t.mp3".data then some 99 else none)
    (fun _ _ => []) 0 0 [] 7 99
    (by decide) (by decide)
    (fun i j hi _ => absurd hi (by omega))
    (fun j hj => absurd hj (by omega))
    rfl rfl (by decide)
  exact ⟨h.1, (h.2 ("out/t.mp3".data)).trans (by decide)⟩

/-! Orchestrator lemmas. -/

theorem albumLoop_events (results : Nat → DownloadResult) (total : Nat) :
    ∀ (songs : List Song) (idx : Nat),
    startedTitles (albumLoop results total songs idx).2 = songs.map Song.title ∧
    completeTotals (albumLoop results total songs idx).2 = [] ∧
    errorMsgs (albumLoop results total songs idx).2 = [] := by
  intro songs
  induction songs with
  | nil => intro idx; exact ⟨rfl, rfl, rfl⟩
  | cons s rest ih =>
    intro idx
    obtain ⟨h1, h2, h3⟩ := ih (idx + 1)
    simp only [startedTitles, completeTotals, errorMsgs] at h1 h2 h3 ⊢
    simp only [albumLoop, List.filterMap_cons]
    simp [h1, h2, h3]

/-- C4 (amended): a resolver error aborts the batch before any download —
the error is reported and `download_album` returns `False` — and the
adapter can never return an empty resource list (`extract_album` raises
`No songs found in HTML` instead); but the two cases are *not* treated
identically: were an adapter to return an empty collection,
`download_album` would run zero downloads and return `True` (a trivially
successful batch), not a failure. -/
theorem C4_resolution_error_aborts_batch :
    (∀ (e : Str) (limit : Option Int) (results : Nat → DownloadResult),
      download_album (Except.error e) limit results = (false, [AlbumEv.errorEv e])) ∧
    (∀ (ti pu : Str) (tn : List Str) (sd fb : List (Str × Str)) (album : Album),
      extract_album ti pu tn sd fb = Except.ok album → album.songs ≠ []) ∧
    (∀ (alb : Album) (limit : Option Int) (results : Nat → DownloadResult),
      alb.songs = [] →
      download_album (Except.ok alb) limit results =
        (true, [AlbumEv.albumStart alb.title alb.source alb.songs.length,
                AlbumEv.albumComplete 0 0 0 0])) := by
  refine ⟨fun e limit results => rfl, ?_, ?_⟩
  · intro ti pu tn sd fb album h
    unfold extract_album at h
    by_cases h1 : 0 < tn.length ∧ 0 < sd.length
    · have hz : (tn.zip sd).map (fun p => (p.1, p.2.1, p.2.2)) ≠ [] := by
        have hlen : ((tn.zip sd).map (fun p => (p.1, p.2.1, p.2.2))).length =
            min tn.length sd.length := by
          simp
        intro hc
        rw [hc] at hlen
        simp at hlen
        omega
      simp only [if_pos h1, if_neg hz, Except.ok.injEq] at h
      subst h
      simpa using hz
    · by_cases h2 : fb ≠ []
      · have hz : enumEntries fb ≠ [] := by
          have hlen : (enumEntries fb).length = fb.length := by
            simp [enumEntries]
          intro hc
          rw [hc] at hlen
          simp at hlen
          exact h2 (List.length_eq_zero.mp hlen.symm)
        simp only [if_neg h1, if_pos h2, if_neg hz, Except.ok.injEq] at h
        subst h
        simpa using hz
      · simp only [if_neg h1, if_neg h2] at h
        exact absurd h (by simp)
  · intro alb limit results h
    have hsl : pySliceLimit alb.songs limit = [] := by
      rw [h]
      cases limit with
      | none => rfl
      | some l => simp [pySliceLimit]
    unfold download_album
    simp only [hsl]
    rfl

/-- C4 witness: a concrete error, a concrete successful extraction, and a
concrete empty collection. -/
theorem C4_resolution_error_aborts_batch_witness :
    download_album (Except.error ("No songs found in HTML".data)) none
      (fun _ => { status := DownloadStatus.failed, path := none, size := 0,
                  message := [] }) =
      (false, [AlbumEv.errorEv ("No songs found in HTML".data)]) ∧
    ({ title := "t".data, url := "u".data,
       songs := [{ id := "9".data, title := "第1首 x".data,
                   url := "https://play.xiaoh.ai/song/p/9.mp3".data,
                   metadata := [("source".data, "izanmei.cc".data),
                                ("track_number".data, "1".data)] }],
       source := "izanmei.cc".data } : Album).songs ≠ [] ∧
    download_album
      (Except.ok { title := "a".data, url := "u".data, songs := [],
                   source := "s".data }) none
      (fun _ => { status := DownloadStatus.success, path := none, size := 0,
                  message := [] }) =
      (true, [AlbumEv.albumStart ("a".data) ("s".data) 0,
              AlbumEv.albumComplete 0 0 0 0]) := by
  refine ⟨C4_resolution_error_aborts_batch.1 _ _ _, ?_, ?_⟩
  · exact C4_resolution_error_aborts_batch.2.1 ("t".data) ("u".data)
      ["1".data] [("9".data, "x".data)] [] _ rfl
  · exact C4_resolution_error_aborts_batch.2.2 _ _ _ rfl

/-- C4 counterexample: a collection with an empty resource list does not
abort the batch — `download_album` runs zero downloads, emits no `error`
event, and returns `True` (batch success), contradicting the claim that an
empty list is treated like a thrown error (reported error, batch failure). -/
theorem C4_cex_empty_collection_reports_success :
    download_album
      (Except.ok { title := "a".data, url := "u".data, songs := [],
                   source := "s".data }) none
      (fun _ => { status := DownloadStatus.failed, path := none, size := 0,
                  message := [] }) =
      (true, [AlbumEv.albumStart ("a".data) ("s".data) 0,
              AlbumEv.albumComplete 0 0 0 0]) := by
  decide

theorem download_album_ok_events (alb : Album) (limit : Option Int)
    (results : Nat → DownloadResult) :
    (download_album (Except.ok alb) limit results).2 =
      AlbumEv.albumStart alb.title alb.source alb.songs.length ::
        ((albumLoop results (pySliceLimit alb.songs limit).length
            (pySliceLimit alb.songs limit) 1).2 ++
          [AlbumEv.albumComplete
            (albumLoop results (pySliceLimit alb.songs limit).length
              (pySliceLimit alb.songs limit) 1).1.1
            (albumLoop results (pySliceLimit alb.songs limit).length
              (pySliceLimit alb.songs limit) 1).1.2.1
            (albumLoop results (pySliceLimit alb.songs limit).length
              (pySliceLimit alb.songs limit) 1).1.2.2
            (pySliceLimit alb.songs limit).length]) := rfl

theorem startedTitles_wrap (ti src : Str) (n s f k t : Nat) (A : List AlbumEv) :
    startedTitles (AlbumEv.albumStart ti src n ::
        (A ++ [AlbumEv.albumComplete s f k t])) =
      startedTitles A := by
  simp [startedTitles]

theorem completeTotals_wrap (ti src : Str) (n s f k t : Nat) (A : List AlbumEv) :
    completeTotals (AlbumEv.albumStart ti src n ::
        (A ++ [AlbumEv.albumComplete s f k t])) =
      completeTotals A ++ [t] := by
  simp [completeTotals]

/-- C5 (amended: for positive limits): a set limit `l ≥ 1` downloads
exactly the first `l` resources of the collection in order (a prefix, not
a sample), and the final `collection_complete` total is the length of that
prefix.  (A set limit of `0` is falsy in the source and disables the
limit; see the counterexample.) -/
theorem C5_download_album_limit_takes_positive_prefix (alb : Album) (l : Int)
    (results : Nat → DownloadResult) (hl : 1 ≤ l) :
    pySliceLimit alb.songs (some l) = alb.songs.take l.toNat ∧
    startedTitles (download_album (Except.ok alb) (some l) results).2 =
      (alb.songs.take l.toNat).map Song.title ∧
    completeTotals (download_album (Except.ok alb) (some l) results).2 =
      [(alb.songs.take l.toNat).length] := by
  have hsl : pySliceLimit alb.songs (some l) = alb.songs.take l.toNat := by
    show (if l = 0 then alb.songs
      else if 0 ≤ l then List.take l.toNat alb.songs
      else List.take (alb.songs.length - (-l).toNat) alb.songs) =
      List.take l.toNat alb.songs
    rw [if_neg (show ¬l = 0 by omega), if_pos (show (0 : Int) ≤ l by omega)]
  obtain ⟨h1, h2, h3⟩ := albumLoop_events results (alb.songs.take l.toNat).length
    (alb.songs.take l.toNat) 1
  refine ⟨hsl, ?_, ?_⟩
  · rw [download_album_ok_events, hsl, startedTitles_wrap]
    exact h1
  · rw [download_album_ok_events, hsl, completeTotals_wrap, h2]
    rfl

/-- C5 witness: three resources, limit 2 — exactly the first two are
processed, total 2. -/
theorem C5_download_album_limit_takes_positive_prefix_witness :
    pySliceLimit
      [{ id := "1".data, title := "s1".data, url := "q1".data, metadata := [] },
       { id := "2".data, title := "s2".data, url := "q2".data, metadata := [] },
       { id := "3".data, title := "s3".data, url := "q3".data, metadata := [] }]
      (some 2) =
      [{ id := "1".data, title := "s1".data, url := "q1".data, metadata := [] },
       { id := "2".data, title := "s2".data, url := "q2".data, metadata := [] }] ∧
    startedTitles (download_album
      (Except.ok { title := "a".data, url := "u".data,
                   songs :=
                     [{ id := "1".data, title := "s1".data, url := "q1".data, metadata := [] },
                      { id := "2".data, title := "s2".data, url := "q2".data, metadata := [] },
                      { id := "3".data, title := "s3".data, url := "q3".data, metadata := [] }],
                   source := "s".data }) (some 2)
      (fun _ => { status := DownloadStatus.success, path := none, size := 0,
                  message := [] })).2 = ["s1".data, "s2".data] ∧
    completeTotals (download_album
      (Except.ok { title := "a".data, url := "u".data,
                   songs :=
                     [{ id := "1".data, title := "s1".data, url := "q1".data, metadata := [] },
                      { id := "2".data, title := "s2".data, url := "q2".data, metadata := [] },
                      { id := "3".data, title := "s3".data, url := "q3".data, metadata := [] }],
                   source := "s".data }) (some 2)
      (fun _ => { status := DownloadStatus.success, path := none, size := 0,
                  message := [] })).2 = [2] := by
  have h := C5_download_album_limit_takes_positive_prefix
    { title := "a".data, url := "u".data,
      songs :=
        [{ id := "1".data, title := "s1".data, url := "q1".data, metadata := [] },
         { id := "2".data, title := "s2".data, url := "q2".data, metadata := [] },
         { id := "3".data, title := "s3".data, url := "q3".data, metadata := [] }],
      source := "s".data } 2
    (fun _ => { status := DownloadStatus.success, path := none, size := 0,
                message := [] })
    (by decide)
  exact ⟨h.1, h.2.1, h.2.2⟩

/-- C5 counterexample: a *set* limit of `0` is falsy in
`songs[:limit] if limit else songs`, so the whole collection is processed:
with one resource and `limit = 0` one `song_start` is emitted, not zero —
the claim's "first `limit` resources" fails for the set value `0`. -/
theorem C5_cex_limit_zero_downloads_all :
    startedTitles (download_album
      (Except.ok { title := "a".data, url := "u".data,
                   songs := [{ id := "1".data, title := "s1".data, url := "q".data,
                               metadata := [] }],
                   source := "s".data }) (some 0)
      (fun _ => { status := DownloadStatus.success, path := none, size := 0,
                  message := [] })).2 = ["s1".data] := by
  decide

/-! Renumbering lemmas. -/

theorem add_track_number_prefix_ne_self (name : Str) (t total : Nat) :
    add_track_number_prefix name (some t) total ≠ name := by
  intro h
  have hlen := congrArg List.length h
  simp [ add_track_number_prefix, zeroPad] at hlen
  omega

theorem renumber_fold (total : Nat) :
    ∀ (files : List Str) (acc : List (Str × Str) × Nat × Nat),
    files.foldl
      (fun acc name =>
        match findMarker (pyStem name) with
        | none => (acc.1, acc.2.1, acc.2.2 + 1)
        | some track_number =>
          let new_name := add_track_number_prefix name (some track_number) total
          if name = new_name then (acc.1, acc.2.1, acc.2.2 + 1)
          else (acc.1 ++ [(name, new_name)], acc.2.1 + 1, acc.2.2))
      acc =
      (acc.1 ++ plannedWith total files,
       acc.2.1 + (plannedWith total files).length,
       acc.2.2 + (files.length - (plannedWith total files).length)) := by
  intro files
  induction files with
  | nil =>
    intro acc
    simp [plannedWith]
  | cons name rest ih =>
    intro acc
    rw [List.foldl_cons]
    cases hm : findMarker (pyStem name) with
    | none =>
      simp only [hm]
      rw [ih]
      have hplan : plannedWith total (name :: rest) = plannedWith total rest := by
        simp [plannedWith, List.filterMap_cons, hm]
      have hle : (plannedWith total rest).length ≤ rest.length :=
        List.length_filterMap_le _ _
      rw [hplan]
      simp only [Prod.mk.injEq, List.length_cons]
      exact ⟨trivial, trivial, by omega⟩
    | some t =>
      simp only [hm]
      rw [if_neg (fun hcon =>
        add_track_number_prefix_ne_self name t total hcon.symm)]
      rw [ih]
      have hplan : plannedWith total (name :: rest) =
          (name, add_track_number_prefix name (some t) total) ::
            plannedWith total rest := by
        simp [plannedWith, List.filterMap_cons, hm]
      rw [hplan]
      simp only [Prod.mk.injEq, List.length_cons]
      refine ⟨by simp, by omega, by omega⟩

/-- C9 (amended): the renumbering utility computes the padding width from
the count of *all* `.mp3` files in the directory (`total_files`), not from
the count of marker-matched files and not from any external total; files
whose stem lacks the marker are left untouched and counted as skipped; and
with exactly five marker-bearing files (and no other `.mp3` files) the
applied prefixes are the 1-digit `1_` … `5_`. -/
theorem C9_renumber_directory_spec :
    (∀ files : List Str,
      renumber_directory files =
        (plannedRenames files, (plannedRenames files).length,
         files.length - (plannedRenames files).length)) ∧
    renumber_directory
      (["第1首 a.mp3", "第2首 b.mp3", "第3首 c.mp3", "第4首 d.mp3",
        "第5首 e.mp3"].map String.data) =
      ([("第1首 a.mp3".data, "1_第1首 a.mp3".data),
        ("第2首 b.mp3".data, "2_第2首 b.mp3".data),
        ("第3首 c.mp3".data, "3_第3首 c.mp3".data),
        ("第4首 d.mp3".data, "4_第4首 d.mp3".data),
        ("第5首 e.mp3".data, "5_第5首 e.mp3".data)], 5, 0) := by
  constructor
  · intro files
    unfold renumber_directory plannedRenames
    have h := renumber_fold files.length files ([], 0, 0)
    simpa using h
  · decide

/-- C9 counterexample: five marker-bearing files plus five plain `.mp3`
files — the marker-matched count is five (so the claim demands 1-digit
prefixes) but the utility pads to two digits (`01_` … `05_`) because
`total_files` counts all ten `.mp3` files. -/
theorem C9_cex_padding_counts_unmatched_files :
    renumber_directory
      (["第1首 a.mp3", "第2首 b.mp3", "第3首 c.mp3", "第4首 d.mp3", "第5首 e.mp3",
        "x1.mp3", "x2.mp3", "x3.mp3", "x4.mp3", "x5.mp3"].map String.data) =
      ([("第1首 a.mp3".data, "01_第1首 a.mp3".data),
        ("第2首 b.mp3".data, "02_第2首 b.mp3".data),
        ("第3首 c.mp3".data, "03_第3首 c.mp3".data),
        ("第4首 d.mp3".data, "04_第4首 d.mp3".data),
        ("第5首 e.mp3".data, "05_第5首 e.mp3".data)], 5, 5) := by
  decide

end ResourceFetcher
